import Mathlib

/-!
Verification development for the `o1o3-pro-plugin-openwebui.py` adapter
(`Pipe` class).  The Python source is shallowly embedded below:

* JSON-like Python values are modelled by the inductive type `J`
  (numbers are modelled by `ℚ`, which covers the ints and floats the
  program manipulates; money/cost arithmetic is exact rational
  arithmetic standing in for Python floats).
* Python dictionary/list accesses (`d.get`, `d[k]`, iteration, `in`,
  truthiness, `str`, `repr`) are modelled by explicit helpers which
  return `Except PyExc` when the corresponding Python expression
  raises.  Exception *message* texts follow CPython where convenient,
  but only the `"Error: "` prefix produced by the handler is relied on
  by theorems, never the message bodies of TypeError/AttributeError.
* The `hashlib.sha256(...).hexdigest()` call is embedded as a complete
  executable SHA-256 over UTF-8 bytes.
-/

/-- Single-quote character (written via its code point). -/
def squote : Char := Char.ofNat 39

/-- Double-quote character (written via its code point). -/
def dquote : Char := Char.ofNat 34

def squoteS : String := String.singleton squote

def dquoteS : String := String.singleton dquote

/-- Python/JSON values as the program sees them. -/
inductive J where
  | null
  | bool (b : Bool)
  | num (q : ℚ)
  | str (s : String)
  | arr (xs : List J)
  | obj (kvs : List (String × J))

/-- Python exceptions escaping an expression. -/
inductive PyExc where
  | timeout
  | exc (msg : String)
deriving DecidableEq, Repr

abbrev PyRes (α : Type) := Except PyExc α

deriving instance DecidableEq for Except

/-- Python type name of a value, used to build exception messages. -/
def J.typeName : J → String
  | .null => "NoneType"
  | .bool _ => "bool"
  | .num q => if q.den = 1 then "int" else "float"
  | .str _ => "str"
  | .arr _ => "list"
  | .obj _ => "dict"

/-- Python truthiness of a value. -/
def J.truthy : J → Bool
  | .null => false
  | .bool b => b
  | .num q => q ≠ 0
  | .str s => s ≠ ""
  | .arr xs => !xs.isEmpty
  | .obj kvs => !kvs.isEmpty

/-- `d.get(k, dflt)`: raises AttributeError when `d` is not a dict. -/
def pyGetD (j : J) (k : String) (dflt : J) : PyRes J :=
  match j with
  | .obj kvs => .ok ((List.lookup k kvs).getD dflt)
  | _ => .error (.exc (squoteS ++ j.typeName ++ squoteS ++
      " object has no attribute " ++ squoteS ++ "get" ++ squoteS))

/-- `d.get(k)` (default `None`). -/
def pyGet (j : J) (k : String) : PyRes J := pyGetD j k .null

/-- `d[k]` with a string key: KeyError when missing, TypeError on lists,
etc. -/
def pyIndex (j : J) (k : String) : PyRes J :=
  match j with
  | .obj kvs =>
    match List.lookup k kvs with
    | some v => .ok v
    | none => .error (.exc (squoteS ++ k ++ squoteS))
  | .arr _ => .error (.exc "list indices must be integers or slices, not str")
  | _ => .error (.exc (squoteS ++ j.typeName ++ squoteS ++ " object is not subscriptable"))

/-- `for x in j`: the sequence of iterated values, or TypeError. -/
def pyIter (j : J) : PyRes (List J) :=
  match j with
  | .arr xs => .ok xs
  | .str s => .ok (s.data.map (fun c => .str (String.singleton c)))
  | .obj kvs => .ok (kvs.map (fun kv => .str kv.1))
  | _ => .error (.exc (squoteS ++ j.typeName ++ squoteS ++ " object is not iterable"))

/-- Python `==` against a string literal (the only form of `==` the
source uses on dynamic values): a non-string compares unequal. -/
def jEqStr (j : J) (s : String) : Bool :=
  match j with
  | .str t => t = s
  | _ => false

/-- Substring test (`needle in hay` on Python strings). -/
def strContainsSub (needle hay : String) : Bool :=
  hay.data.tails.any (fun t => needle.data.isPrefixOf t)

/-- `k in j` for a string `k` (dict-key / list-member / substring test). -/
def pyContains (k : String) (j : J) : PyRes Bool :=
  match j with
  | .obj kvs => .ok (kvs.any (fun kv => kv.1 = k))
  | .arr xs => .ok (xs.any (fun x => jEqStr x k))
  | .str s => .ok (strContainsSub k s)
  | _ => .error (.exc ("argument of type " ++ squoteS ++ j.typeName ++ squoteS ++
      " is not iterable"))

/-- Numeric coercion as performed by Python arithmetic/comparisons
(`bool` is an `int` subclass); anything else raises TypeError. -/
def pyToNum (j : J) (opDesc : String) : PyRes ℚ :=
  match j with
  | .num q => .ok q
  | .bool b => .ok (if b then 1 else 0)
  | _ => .error (.exc ("unsupported operand type for " ++ opDesc ++ ": " ++
      squoteS ++ j.typeName ++ squoteS))

/-- Quote a string the way `repr` chooses quotes (escaping of special
characters inside the string is not reproduced; no theorem depends on
it). -/
def pyQuote (s : String) : String :=
  if s.data.contains squote ∧ ¬ s.data.contains dquote then
    dquoteS ++ s ++ dquoteS
  else
    squoteS ++ s ++ squoteS

/-- `repr` of a number: exact for integers; non-integer rationals
(standing in for Python floats) are rendered as `num/den`, an
approximation of float repr that no theorem depends on. -/
def numRepr (q : ℚ) : String :=
  if q.den = 1 then toString q.num else toString q.num ++ "/" ++ toString q.den

mutual

/-- Python `repr` of a value (container rendering follows CPython). -/
def pyRepr : J → String
  | .null => "None"
  | .bool b => if b then "True" else "False"
  | .num q => numRepr q
  | .str s => pyQuote s
  | .arr xs => "[" ++ String.intercalate ", " (pyReprList xs) ++ "]"
  | .obj kvs => "\x7b" ++ String.intercalate ", " (pyReprObj kvs) ++ "\x7d"

def pyReprList : List J → List String
  | [] => []
  | x :: xs => pyRepr x :: pyReprList xs

def pyReprObj : List (String × J) → List String
  | [] => []
  | kv :: xs => (pyQuote kv.1 ++ ": " ++ pyRepr kv.2) :: pyReprObj xs

end

/-- Python `str` of a value (`str` on strings is the identity,
containers fall back to `repr`). -/
def pyStr : J → String
  | .str s => s
  | j => pyRepr j

/-! ### UTF-8 and SHA-256 (for `hashlib.sha256(text.encode()).hexdigest()`) -/

/-- UTF-8 encoding of a single character (byte values as `Nat`). -/
def utf8EncodeChar (c : Char) : List Nat :=
  let n := c.toNat
  if n < 128 then [n]
  else if n < 2048 then
    [192 ||| (n >>> 6), 128 ||| (n &&& 63)]
  else if n < 65536 then
    [224 ||| (n >>> 12), 128 ||| ((n >>> 6) &&& 63), 128 ||| (n &&& 63)]
  else
    [240 ||| (n >>> 18), 128 ||| ((n >>> 12) &&& 63),
     128 ||| ((n >>> 6) &&& 63), 128 ||| (n &&& 63)]

/-- UTF-8 bytes of a string (`s.encode()` in Python). -/
def strBytes (s : String) : List Nat := (s.data.map utf8EncodeChar).join

def w32 (n : Nat) : Nat := n % 4294967296

def rotr32 (x n : Nat) : Nat := w32 ((x >>> n) ||| (x <<< (32 - n)))

def bnot32 (x : Nat) : Nat := 4294967295 - x

def sha256K : List Nat :=
  [1116352408, 1899447441, 3049323471, 3921009573, 961987163, 1508970993,
   2453635748, 2870763221, 3624381080, 310598401, 607225278, 1426881987,
   1925078388, 2162078206, 2614888103, 3248222580, 3835390401, 4022224774,
   264347078, 604807628, 770255983, 1249150122, 1555081692, 1996064986,
   2554220882, 2821834349, 2952996808, 3210313671, 3336571891, 3584528711,
   113926993, 338241895, 666307205, 773529912, 1294757372, 1396182291,
   1695183700, 1986661051, 2177026350, 2456956037, 2730485921, 2820302411,
   3259730800, 3345764771, 3516065817, 3600352804, 4094571909, 275423344,
   430227734, 506948616, 659060556, 883997877, 958139571, 1322822218,
   1537002063, 1747873779, 1955562222, 2024104815, 2227730452, 2361852424,
   2428436474, 2756734187, 3204031479, 3329325298]

def sha256H0 : List Nat :=
  [1779033703, 3144134277, 1013904242, 2773480762,
   1359893119, 2600822924, 528734635, 1541459225]

def ssig0 (x : Nat) : Nat := (rotr32 x 7) ^^^ (rotr32 x 18) ^^^ (x >>> 3)

def ssig1 (x : Nat) : Nat := (rotr32 x 17) ^^^ (rotr32 x 19) ^^^ (x >>> 10)

def bsig0 (x : Nat) : Nat := (rotr32 x 2) ^^^ (rotr32 x 13) ^^^ (rotr32 x 22)

def bsig1 (x : Nat) : Nat := (rotr32 x 6) ^^^ (rotr32 x 11) ^^^ (rotr32 x 25)

def shaCh (e f g : Nat) : Nat := (e &&& f) ^^^ ((bnot32 e) &&& g)

def shaMaj (a b c : Nat) : Nat := (a &&& b) ^^^ (a &&& c) ^^^ (b &&& c)

/-- SHA-256 padding of a byte list. -/
def sha256pad (msg : List Nat) : List Nat :=
  let l := msg.length
  let z := (64 + 56 - ((l + 1) % 64)) % 64
  let bitlen := l * 8
  msg ++ [128] ++ List.replicate z 0 ++
    (List.range 8).map (fun i => (bitlen >>> (8 * (7 - i))) % 256)

/-- The 16 initial 32-bit words of a 64-byte chunk (big-endian). -/
def chunkWords (bytes : List Nat) : List Nat :=
  (List.range 16).map (fun i =>
    w32 ((bytes.getD (4*i) 0 <<< 24) ||| (bytes.getD (4*i+1) 0 <<< 16) |||
         (bytes.getD (4*i+2) 0 <<< 8) ||| bytes.getD (4*i+3) 0))

/-- Message-schedule extension from 16 to 64 words. -/
def extendWords (ws : List Nat) : List Nat :=
  (List.range 48).foldl (fun acc _ =>
    let n := acc.length
    acc ++ [w32 (acc.getD (n-16) 0 + ssig0 (acc.getD (n-15) 0) +
                 acc.getD (n-7) 0 + ssig1 (acc.getD (n-2) 0))]) ws

/-- One round of the SHA-256 compression function. -/
def compressStep (st : List Nat) (kw : Nat × Nat) : List Nat :=
  match st with
  | [a, b, c, d, e, f, g, h] =>
    let t1 := w32 (h + bsig1 e + shaCh e f g + kw.1 + kw.2)
    let t2 := w32 (bsig0 a + shaMaj a b c)
    [w32 (t1 + t2), a, b, c, w32 (d + t1), e, f, g]
  | other => other

/-- Process one 64-byte chunk. -/
def processChunk (h : List Nat) (chunk : List Nat) : List Nat :=
  let ws := extendWords (chunkWords chunk)
  let st := (sha256K.zip ws).foldl compressStep h
  (h.zip st).map (fun p => w32 (p.1 + p.2))

/-- Split a padded message into 64-byte chunks (structural recursion on
a fuel bounded by the length, so that concrete hashes evaluate). -/
def splitChunksF : Nat → List Nat → List (List Nat)
  | _, [] => []
  | 0, _ :: _ => []
  | Nat.succ fuel, a :: as => ((a :: as).take 64) :: splitChunksF fuel ((a :: as).drop 64)

def splitChunks (l : List Nat) : List (List Nat) := splitChunksF l.length l

/-- The eight 32-bit digest words of a byte message. -/
def sha256words (msg : List Nat) : List Nat :=
  (splitChunks (sha256pad msg)).foldl processChunk sha256H0

def hexChar (n : Nat) : Char :=
  if n < 10 then Char.ofNat (48 + n) else Char.ofNat (87 + n)

def word32Hex (n : Nat) : List Char :=
  (List.range 8).map (fun i => hexChar ((n >>> (28 - 4 * i)) % 16))

/-- `hashlib.sha256(msg).hexdigest()`. -/
def sha256hex (msg : List Nat) : String :=
  String.mk ((sha256words msg).map word32Hex).join

/-! ### Settings, accounting state -/

/-- The `Pipe.Valves` settings object (defaults as in the source).
`namePref` embeds the source's name-prefix field. -/
structure Valves where
  namePref : String := "OpenAI: "
  BASE_URL : String := "https://api.openai.com/v1"
  API_KEYS : String := ""
  THINKING_EFFORT : String := "medium"
  SHOW_TOKEN_STATS : Bool := true
  SHOW_CUMULATIVE_COST : Bool := true
  MAX_OUTPUT_TOKENS : Int := 3200
  TIMEOUT_SECONDS : Int := 600
  DEBUG_MODE : Bool := false
deriving DecidableEq, Repr

/-- One entry of `self.conversation_costs` (token totals are rationals
because usage values in a JSON response may be any number). -/
structure ConvCost where
  total_cost : ℚ
  total_input_tokens : ℚ
  total_output_tokens : ℚ
  total_reasoning_tokens : ℚ
  message_count : Int
deriving DecidableEq, Repr

/-- The fresh entry created for a conversation id not yet in the map. -/
def initConvCost : ConvCost :=
  { total_cost := 0, total_input_tokens := 0, total_output_tokens := 0,
    total_reasoning_tokens := 0, message_count := 0 }

/-- Mutable adapter state: credential cursor and the conversation-cost
dictionary (association list in insertion order, like a Python dict). -/
structure PipeState where
  api_key_index : Nat
  conversation_costs : List (String × ConvCost)
deriving DecidableEq, Repr

/-- `Pipe._update_conversation_cost` (source lines 112-137): lazily
creates the entry, then adds cost/token counts and bumps the message
count.  The `tokens` dict of the source is passed as its three values
(the only call site builds it with exactly the keys input/output/reasoning). -/
def updateConversationCost (m : List (String × ConvCost)) (conv_id : String)
    (cost tin tout treas : ℚ) : List (String × ConvCost) :=
  let base := if (List.lookup conv_id m).isSome then m else m ++ [(conv_id, initConvCost)]
  base.map (fun kv =>
    if kv.1 = conv_id then
      (kv.1,
       { total_cost := kv.2.total_cost + cost,
         total_input_tokens := kv.2.total_input_tokens + tin,
         total_output_tokens := kv.2.total_output_tokens + tout,
         total_reasoning_tokens := kv.2.total_reasoning_tokens + treas,
         message_count := kv.2.message_count + 1 })
    else kv)

/-! ### Credential rotation (`Pipe._get_next_api_key`, lines 139-147) -/

/-- `str.split(",")`: split on every comma, keeping empty groups. -/
def splitCommaChars : List Char → List (List Char)
  | [] => [[]]
  | c :: cs =>
    if c = ',' then [] :: splitCommaChars cs
    else
      match splitCommaChars cs with
      | g :: gs => (c :: g) :: gs
      | [] => [[c]]

/-- ASCII whitespace as stripped by `str.strip()`. -/
def isSpaceChar (c : Char) : Bool :=
  c = ' ' ∨ c = '\t' ∨ c = '\n' ∨ c = '\r' ∨ c = '\x0b' ∨ c = '\x0c'

/-- `str.strip()`. -/
def pyStrip (s : String) : String :=
  String.mk (((s.data.dropWhile isSpaceChar).reverse.dropWhile isSpaceChar).reverse)

/-- `[k.strip() for k in API_KEYS.split(",") if k.strip()]`. -/
def splitKeys (s : String) : List String :=
  ((splitCommaChars s.data).map (fun g => pyStrip (String.mk g))).filter
    (fun k => k ≠ "")

/-- Round-robin selection: raises `ValueError` when no keys are
configured, otherwise returns `keys[idx % len(keys)]` and the bumped
cursor. -/
def getNextApiKey (apiKeys : String) (idx : Nat) : PyRes (String × Nat) :=
  let keys := splitKeys apiKeys
  if keys = [] then .error (.exc "No API keys configured")
  else .ok (keys.getD (idx % keys.length) "", idx + 1)

/-- `N` successive calls to `_get_next_api_key` starting from cursor
`idx`: the list of selected keys and the final cursor. -/
def runKeys (apiKeys : String) : Nat → Nat → List String × Nat
  | 0, idx => ([], idx)
  | n + 1, idx =>
    match getNextApiKey apiKeys idx with
    | .ok (k, idx') =>
      let r := runKeys apiKeys n idx'
      (k :: r.1, r.2)
    | .error _ => ([], idx)

/-! ### Conversation-identifier derivation (`Pipe._get_conversation_id`,
lines 66-110) -/

/-- Items of `[item.get("text", "") for item in content if
item.get("type") == "text"]` (raises when an item is not a dict). -/
def textItemsOf : List J → PyRes (List J)
  | [] => .ok []
  | item :: rest => do
    let t ← pyGet item "type"
    if jEqStr t "text" then
      let v ← pyGetD item "text" (J.str "")
      let vs ← textItemsOf rest
      .ok (v :: vs)
    else
      textItemsOf rest

/-- `" ".join(parts)` / `"\n".join(parts)` argument check: every joined
value must be a `str`, otherwise TypeError. -/
def pyJoinStrs : List J → PyRes (List String)
  | [] => .ok []
  | .str s :: rest => do
    let ss ← pyJoinStrs rest
    .ok (s :: ss)
  | j :: _ =>
    .error (.exc ("sequence item: expected str instance, " ++ j.typeName ++ " found"))

/-- The loop of `_get_conversation_id`: content of the first message
whose role is `"user"` (text parts of a list content joined by single
spaces, anything else via `str`), or `none` when no user message
exists. -/
def firstUserMessage : List J → PyRes (Option String)
  | [] => .ok none
  | msg :: rest => do
    let role ← pyGet msg "role"
    if jEqStr role "user" then
      let content ← pyGetD msg "content" (J.str "")
      match content with
      | .arr items => do
        let parts ← textItemsOf items
        let strs ← pyJoinStrs parts
        .ok (some (String.intercalate " " strs))
      | c => .ok (some (pyStr c))
    else
      firstUserMessage rest

/-- Python string slicing `s[:n]` (the first `n` characters). -/
def strTake (s : String) (n : Nat) : String := String.mk (s.data.take n)

/-- The tail of `_get_conversation_id`:
`"conv_" + user_id + "_" + sha256(user_id + "_" + key).hexdigest()[:16]`. -/
def convIdOf (uid key : String) : String :=
  "conv_" ++ uid ++ "_" ++ strTake (sha256hex (strBytes (uid ++ "_" ++ key))) 16

/-- The debug-branch list comprehension
`[m for m in messages if m.get("role") == "user"]` (its `.get` may raise). -/
def countUserMsgs : List J → PyRes Nat
  | [] => .ok 0
  | m :: rest => do
    let r ← pyGet m "role"
    let n ← countUserMsgs rest
    .ok (if jEqStr r "user" then n + 1 else n)

/-- `Pipe._get_conversation_id` (source lines 66-110). -/
def getConversationId (v : Valves) (body user : J) : PyRes String := do
  let msgsJ ← pyGetD body "messages" (J.arr [])
  let msgs ← pyIter msgsJ
  let fumOpt ← firstUserMessage msgs
  let first_user_message :=
    match fumOpt with
    | none => "no_message"
    | some s => if s = "" then "no_message" else s
  let userIdJ ← pyGetD user "id" (J.str "unknown")
  let user_id := pyStr userIdJ
  let message_key := strTake first_user_message 50
  let conv_id := convIdOf user_id message_key
  if v.DEBUG_MODE then do
    let _ ← countUserMsgs msgs
    .ok conv_id
  else
    .ok conv_id

/-! ### Message translation (`Pipe._transform_messages`, lines 156-211) -/

/-- The inner loop over a user message's list content. -/
def transformUserItems : List J → PyRes (List J)
  | [] => .ok []
  | item :: rest => do
    let ty ← pyIndex item "type"
    if jEqStr ty "text" then
      let tx ← pyIndex item "text"
      let restT ← transformUserItems rest
      .ok (J.obj [("type", J.str "input_text"), ("text", tx)] :: restT)
    else if jEqStr ty "image_url" then
      let iu ← pyIndex item "image_url"
      let url ← pyIndex iu "url"
      let restT ← transformUserItems rest
      .ok (J.obj [("type", J.str "input_image"), ("image_url", url)] :: restT)
    else
      transformUserItems rest

/-- `Pipe._transform_messages`: any exception inside the per-message
`try` becomes `ValueError("Invalid message format: <message>")`, which
aborts the whole translation. -/
def transformMessages : List J → PyRes (List J)
  | [] => .ok []
  | message :: rest =>
    let one : PyRes (Option J) := do
      let role ← pyGet message "role"
      let content ← pyGet message "content"
      if jEqStr role "user" then
        match content with
        | .arr items => do
          let tc ← transformUserItems items
          .ok (some (J.obj [("role", J.str "user"), ("content", J.arr tc)]))
        | c => .ok (some (J.obj [("role", J.str "user"),
            ("content", J.arr [J.obj [("type", J.str "input_text"), ("text", c)]])]))
      else if jEqStr role "assistant" then
        .ok (some (J.obj [("role", J.str "assistant"),
          ("content", J.arr [J.obj [("type", J.str "output_text"), ("text", content)]])]))
      else if jEqStr role "system" then
        .ok (some (J.obj [("role", J.str "system"),
          ("content", J.arr [J.obj [("type", J.str "input_text"), ("text", content)]])]))
      else
        .ok none
    match one with
    | .error _ => .error (.exc ("Invalid message format: " ++ pyStr message))
    | .ok b => do
      let restT ← transformMessages rest
      .ok (match b with | some blk => blk :: restT | none => restT)

/-! ### Response text extraction -/

/-- Inner loop of the `"message"` branch of
`_extract_text_from_output`: collect truthy `"output_text"` texts. -/
def msgContentTexts : List J → List J
  | [] => []
  | .obj kvs :: rest =>
    if jEqStr ((List.lookup "type" kvs).getD .null) "output_text" then
      let text := (List.lookup "text" kvs).getD (.str "")
      if text.truthy then text :: msgContentTexts rest else msgContentTexts rest
    else msgContentTexts rest
  | _ :: rest => msgContentTexts rest

/-- Inner loop of the `"content"`-list branch: collect every dict
entry's `"text"` field. -/
def contentListTexts : List J → List J
  | [] => []
  | .obj kvs :: rest =>
    match List.lookup "text" kvs with
    | some t => t :: contentListTexts rest
    | none => contentListTexts rest
  | _ :: rest => contentListTexts rest

/-- Body of `Pipe._extract_text_from_output` (source lines 213-243),
collecting the `text_parts` values; iterating a non-iterable
`"content"` of a message item raises. -/
def extractParts : List J → PyRes (List J)
  | [] => .ok []
  | item :: rest => do
    let here ←
      (match item with
       | .obj kvs =>
         if jEqStr ((List.lookup "type" kvs).getD .null) "message" &&
            jEqStr ((List.lookup "role" kvs).getD .null) "assistant" then do
           let contents ← pyIter ((List.lookup "content" kvs).getD (J.arr []))
           pure (msgContentTexts contents)
         else if kvs.any (fun kv => kv.1 = "text") then
           pure [(List.lookup "text" kvs).getD .null]
         else if kvs.any (fun kv => kv.1 = "content") then
           match (List.lookup "content" kvs).getD .null with
           | .str s => pure [J.str s]
           | .arr cs => pure (contentListTexts cs)
           | _ => pure []
         else pure []
       | .str s => pure [J.str s]
       | _ => pure ([] : List J))
    let tail ← extractParts rest
    .ok (here ++ tail)

/-- `Pipe._extract_text_from_output`: `"\n".join(text_parts)` (the join
raises when a collected part is not a string). -/
def extractTextFromOutput (output_items : List J) : PyRes String := do
  let parts ← extractParts output_items
  let strs ← pyJoinStrs parts
  .ok (String.intercalate "\n" strs)

/-- Helper for method 3's regex: consume `[^'"]+['"]`. -/
def grabQuoted (cs : List Char) : Option (List Char × List Char) :=
  let content := cs.takeWhile (fun c => c ≠ squote ∧ c ≠ dquote)
  let rest := cs.dropWhile (fun c => c ≠ squote ∧ c ≠ dquote)
  match content, rest with
  | [], _ => none
  | _, [] => none
  | cont, _q :: rest2 => some (cont, rest2)

/-- `re.findall(r"text=['\"]([^'\"]+)['\"]", s)`: left-to-right,
non-overlapping scan (fuel = remaining length). -/
def findTextMatches : Nat → List Char → List String
  | 0, _ => []
  | _, [] => []
  | Nat.succ fuel, 't' :: 'e' :: 'x' :: 't' :: '=' :: q :: rest =>
    if q = squote ∨ q = dquote then
      match grabQuoted rest with
      | some (cont, rest2) => String.mk cont :: findTextMatches fuel rest2
      | none => findTextMatches fuel ('e' :: 'x' :: 't' :: '=' :: q :: rest)
    else findTextMatches fuel ('e' :: 'x' :: 't' :: '=' :: q :: rest)
  | Nat.succ fuel, _ :: cs => findTextMatches fuel cs

def regexFindTexts (s : String) : List String := findTextMatches s.length s.data

/-- The three-method output-text extraction of `pipe` (source lines
366-389): the final value of the `output_text` variable, `J.null`
standing for Python `None`. -/
def extractOutputText (response_data : J) : PyRes J := do
  let hasOT ← pyContains "output_text" response_data
  let ot1 ←
    if hasOT then do
      let vOT ← pyIndex response_data "output_text"
      pure (if vOT.truthy then vOT else J.null)
    else pure J.null
  let ot2 ←
    if ot1.truthy then pure ot1
    else do
      let hasOut ← pyContains "output" response_data
      if hasOut then do
        let out ← pyIndex response_data "output"
        let items ← pyIter out
        let s ← extractTextFromOutput items
        pure (J.str s)
      else pure ot1
  if ot2.truthy then pure ot2
  else do
    let outD ← pyGetD response_data "output" (J.str "")
    let output_str := pyStr outD
    if strContainsSub ("text=" ++ squoteS) output_str ∨
       strContainsSub ("text=" ++ dquoteS) output_str then
      let ms := regexFindTexts output_str
      if ms.isEmpty then pure ot2
      else pure (J.str (String.intercalate "\n" ms))
    else pure ot2

/-! ### Pricing / cost computation (source lines 420-462) -/

def openai_response_models : List String := ["o1-pro", "o3-pro"]

/-- The static per-million-token pricing table. -/
def pricing : List (String × ℚ × ℚ) := [("o3-pro", 20, 80), ("o1-pro", 150, 600)]

/-- The per-message cost computed at lines 429-451: input/output token
prices, plus reasoning tokens billed at the output price only for
`"o3-pro"`; `0.0` when the model is absent from the table. -/
def computeCost (model_id : String) (input_tokens output_tokens reasoning_tokens : ℚ) : ℚ :=
  match List.lookup model_id pricing with
  | none => 0
  | some pq =>
    (input_tokens / 1000000) * pq.1 + (output_tokens / 1000000) * pq.2 +
      (if reasoning_tokens > 0 ∧ model_id = "o3-pro" then
        (reasoning_tokens / 1000000) * pq.2 else 0)

/-! ### Display formatting (`Pipe._format_token_stats`, lines 245-302) -/

/-- Comma-group helper: digits in groups of three (fuel-structural). -/
def chunk3F : Nat → List Char → List (List Char)
  | _, [] => []
  | 0, _ :: _ => []
  | Nat.succ fuel, a :: as => ((a :: as).take 3) :: chunk3F fuel ((a :: as).drop 3)

def chunk3 (l : List Char) : List (List Char) := chunk3F l.length l

def fmtCommaNat (n : Nat) : String :=
  String.intercalate ","
    (((chunk3 (toString n).data.reverse).map (fun g => String.mk g.reverse)).reverse)

/-- `f"{q:,}"` for a rational standing in for a Python number: exact
comma-grouping for integers; for non-integers the fractional rendering
is approximate (no theorem depends on it). -/
def fmtCommaQ (q : ℚ) : String :=
  if q.den = 1 then
    (if q.num < 0 then "-" else "") ++ fmtCommaNat q.num.natAbs
  else
    (if q.num < 0 then "-" else "") ++ fmtCommaNat (|q|.floor.natAbs) ++ "." ++
      toString (((|q| - |q|.floor) * 1000000000).floor.natAbs)

/-- `f"{j:,}"` on an arbitrary value: numbers (and bools, which are int
in Python) format; everything else raises. -/
def pyFormatComma (j : J) : PyRes String :=
  match j with
  | .num q => .ok (fmtCommaQ q)
  | .bool b => .ok (if b then "1" else "0")
  | .str _ => .error (.exc ("Cannot specify " ++ squoteS ++ "," ++ squoteS ++
      " with " ++ squoteS ++ "s" ++ squoteS ++ "."))
  | j' => .error (.exc ("unsupported format string passed to " ++ j'.typeName ++
      ".__format__"))

def padZeros (s : String) (n : Nat) : String :=
  String.mk (List.replicate (n - s.length) '0') ++ s

/-- `f"{q:.4f}"`: fixed four decimal places, ties to even. -/
def fmtFixed4 (q : ℚ) : String :=
  let scaled := q * 10000
  let fl := scaled.floor
  let frac := scaled - fl
  let r : Int :=
    if frac > 1/2 then fl + 1
    else if frac < 1/2 then fl
    else if fl % 2 = 0 then fl else fl + 1
  let sign := if r < 0 then "-" else ""
  let a := r.natAbs
  sign ++ toString (a / 10000) ++ "." ++ padZeros (toString (a % 10000)) 4

/-- Mojibake emoji strings exactly as the source file contains them. -/
def statsEmoji : String := "ðŸ“Š"

def moneyEmoji : String := "ðŸ’°"

def warnEmoji : String := "âš ï¸"

def procEmoji : String := "ðŸ”„"

def toolsEmoji : String := "ðŸ”§"

/-- `Pipe._format_token_stats` (source lines 245-302).  `status` and
`incomplete_reason` are the dynamic values the call site passes
(`incomplete_reason = J.null` models Python `None`). -/
def formatTokenStats (v : Valves) (costs : List (String × ConvCost)) (usage : J)
    (model_id : String) (status : J) (incomplete_reason : J) (conv_id : String)
    (current_cost : ℚ) : PyRes String :=
  if !usage.truthy || !v.SHOW_TOKEN_STATS then .ok ""
  else do
    let input_tokens ← pyGetD usage "input_tokens" (J.num 0)
    let output_tokens ← pyGetD usage "output_tokens" (J.num 0)
    let total_tokens ← pyGetD usage "total_tokens" (J.num 0)
    let hasDet ← pyContains "output_tokens_details" usage
    let reasoning_tokens ←
      if hasDet then do
        let det ← pyIndex usage "output_tokens_details"
        pyGetD det "reasoning_tokens" (J.num 0)
      else pure (J.num 0)
    let sIn ← pyFormatComma input_tokens
    let rq ← pyToNum reasoning_tokens ">"
    let reasPart ←
      if rq > 0 then do
        let sReas ← pyFormatComma reasoning_tokens
        pure ("- Reasoning: " ++ sReas ++ " tokens\n")
      else pure ""
    let sOut ← pyFormatComma output_tokens
    let sTot ← pyFormatComma total_tokens
    let head := "\n\n---\n" ++ statsEmoji ++ " **Token Usage (This Message)**:\n" ++
      "- Input: " ++ sIn ++ " tokens\n" ++ reasPart ++
      "- Output: " ++ sOut ++ " tokens\n" ++
      "- Total: " ++ sTot ++ " tokens\n" ++
      "- **Cost for this message**: $" ++ fmtFixed4 current_cost ++ "\n"
    let cum :=
      if v.SHOW_CUMULATIVE_COST ∧ conv_id ≠ "" then
        match List.lookup conv_id costs with
        | some cs =>
          "\n" ++ moneyEmoji ++ " **Conversation Totals**:\n" ++
          "- Messages: " ++ toString cs.message_count ++ "\n" ++
          "- Total Input: " ++ fmtCommaQ cs.total_input_tokens ++ " tokens\n" ++
          (if cs.total_reasoning_tokens > 0 then
            "- Total Reasoning: " ++ fmtCommaQ cs.total_reasoning_tokens ++ " tokens\n"
           else "") ++
          "- Total Output: " ++ fmtCommaQ cs.total_output_tokens ++ " tokens\n" ++
          "- **Total Cost**: $" ++ fmtFixed4 cs.total_cost ++ "\n"
        | none => ""
      else ""
    let statusPart :=
      if jEqStr status "incomplete" then
        "\n" ++ warnEmoji ++ " **Response Status**: Incomplete" ++
        (if incomplete_reason.truthy then
          " (Reason: " ++ pyStr incomplete_reason ++ ")" else "") ++ "\n"
      else ""
    .ok (head ++ cum ++ statusPart ++ "---")

/-! ### The main pipeline (`Pipe.pipe`, source lines 304-483) -/

/-- Position of the first `'.'`, as computed by `str.find(".")`
(`none` for Python's `-1`). -/
def findDot : List Char → Option Nat
  | [] => none
  | c :: cs => if c = '.' then some 0 else (findDot cs).map (fun i => i + 1)

/-- `body["model"][body["model"].find(".") + 1:]`: the suffix after the
FIRST dot (`find` returns the first occurrence, or -1 when absent, in
which case `[0:]` keeps the whole string). -/
def modelSuffix (s : String) : String :=
  match findDot s.data with
  | some i => String.mk (s.data.drop (i + 1))
  | none => s

/-- Modelled from the spec: "a dotted identifier whose suffix after the
LAST dot names the target model" — for comparison with `modelSuffix`.
The last dot is the first dot of the reversed character list. -/
def modelSuffixSpec (s : String) : String :=
  match findDot s.data.reverse with
  | some i => String.mk (s.data.reverse.take i).reverse
  | none => s

/-- First-occurrence deduplication standing in for `set(tools_used)`
(CPython set iteration order for strings is hash-dependent; no theorem
inspects this fragment). -/
def dedupFirst (l : List String) : List String :=
  l.foldl (fun acc s => if acc.contains s then acc else acc ++ [s]) []

/-- The environment's answer to the single `httpx` POST: a timeout, or
a response with status code, raw text, and decoded JSON (`none` when
`response.json()` would raise). -/
inductive NetOutcome where
  | timeout
  | resp (status_code : Nat) (text : String) (json : Option J)

/-- The `DEBUG_MODE` logging line `list(response_data.keys())` (source
line 364): raises AttributeError on a non-dict. -/
def debugKeysCheck (v : Valves) (response_data : J) : PyRes Unit :=
  if v.DEBUG_MODE then
    match response_data with
    | .obj _ => .ok ()
    | rd => .error (.exc (squoteS ++ rd.typeName ++ squoteS ++
        " object has no attribute " ++ squoteS ++ "keys" ++ squoteS))
  else .ok ()

/-- Source lines 398-401: `incomplete_details.get("reason", "Unknown")`
when the status is `"incomplete"`, otherwise `None`. -/
def incompleteReason (response_data status : J) : PyRes (Option J) :=
  if jEqStr status "incomplete" then do
    let det ← pyGetD response_data "incomplete_details" (J.obj [])
    let r ← pyGetD det "reason" (J.str "Unknown")
    .ok (some r)
  else .ok none

/-- `Option J` to the Python value of the `incomplete_reason` variable. -/
def reasonJOf (o : Option J) : J := o.getD J.null

/-- Source lines 431-447: extract input/output/reasoning token values
from the usage dict and coerce them numerically in the order the
source's arithmetic does. -/
def tokensCalc (usage_data : J) : PyRes (ℚ × ℚ × ℚ) := do
  let itJ ← pyGetD usage_data "input_tokens" (J.num 0)
  let otJ ← pyGetD usage_data "output_tokens" (J.num 0)
  let hasDet ← pyContains "output_tokens_details" usage_data
  let rtJ ←
    if hasDet then do
      let det ← pyIndex usage_data "output_tokens_details"
      pyGetD det "reasoning_tokens" (J.num 0)
    else pure (J.num 0)
  let qin ← pyToNum itJ "/"
  let qout ← pyToNum otJ "/"
  let qr ← pyToNum rtJ ">"
  pure (qin, qout, qr)

/-- The single answer-text fragment: the extracted text, or the
no-text warning (source lines 391-394). -/
def frag1Of (output_text : J) : String :=
  if output_text.truthy then pyStr output_text
  else "No response text found in the API response."

/-- The truncation-notice fragments (source lines 399-405). -/
def incFragsOf (v : Valves) : Option J → List String
  | some r =>
    ["\n\n" ++ warnEmoji ++ " **Note**: Response was truncated due to: " ++ pyStr r] ++
    (if jEqStr r "max_output_tokens" then
      ["\nConsider increasing MAX_OUTPUT_TOKENS (currently set to " ++
        toString v.MAX_OUTPUT_TOKENS ++ ")"]
     else [])
  | none => []

/-- `tools_used` (source lines 408-415). -/
def toolsUsedOf (output_items : List J) : List String :=
  output_items.filterMap (fun item =>
    match item with
    | .obj kvs =>
      let t := (List.lookup "type" kvs).getD .null
      if jEqStr t "file_search" then some "file_search"
      else if jEqStr t "function" then some "function"
      else none
    | _ => none)

/-- The tools fragment (source lines 417-418). -/
def toolFragsOf (output_items : List J) : List String :=
  if toolsUsedOf output_items ≠ [] then
    ["\n\n" ++ toolsEmoji ++ " **Tools used**: " ++
      String.intercalate ", " (dedupFirst (toolsUsedOf output_items))]
  else []

/-- Source lines 362-477: everything after a 200 response has been
decoded.  Returns the fragments yielded, the updated conversation-cost
map, and the exception escaping the `try` block, if any.  Fragments are
strings; the single `yield output_text` of a non-string truthy
`output_text` is rendered with `pyStr` (no claim exercises it). -/
def respond (v : Valves) (costs : List (String × ConvCost)) (conv_id model_id : String)
    (response_data : J) : List String × List (String × ConvCost) × Option PyExc :=
  match debugKeysCheck v response_data with
  | .error e => ([], costs, some e)
  | .ok _ =>
  match extractOutputText response_data with
  | .error e => ([], costs, some e)
  | .ok output_text =>
  match pyGetD response_data "status" (J.str "completed") with
  | .error e => ([frag1Of output_text], costs, some e)
  | .ok status =>
  match incompleteReason response_data status with
  | .error e => ([frag1Of output_text], costs, some e)
  | .ok reasonOpt =>
  match (pyGetD response_data "output" (J.arr [])) >>= pyIter with
  | .error e => (frag1Of output_text :: incFragsOf v reasonOpt, costs, some e)
  | .ok output_items =>
  let fragsA := frag1Of output_text :: (incFragsOf v reasonOpt ++ toolFragsOf output_items)
  match pyGetD response_data "usage" (J.obj []) with
  | .error e => (fragsA, costs, some e)
  | .ok usage_data =>
  if usage_data.truthy then
    match List.lookup model_id pricing with
    | some _ =>
      match tokensCalc usage_data with
      | .error e => (fragsA, costs, some e)
      | .ok (qin, qout, qr) =>
        let current_cost := computeCost model_id qin qout qr
        let costs' := updateConversationCost costs conv_id current_cost qin qout qr
        match formatTokenStats v costs' usage_data model_id status (reasonJOf reasonOpt)
            conv_id current_cost with
        | .error e => (fragsA, costs', some e)
        | .ok stats => (fragsA ++ (if stats ≠ "" then [stats] else []), costs', none)
    | none =>
      match formatTokenStats v costs usage_data model_id status (reasonJOf reasonOpt)
          conv_id 0 with
      | .error e => (fragsA, costs, some e)
      | .ok stats => (fragsA ++ (if stats ≠ "" then [stats] else []), costs, none)
  else
    (fragsA ++ (if v.SHOW_TOKEN_STATS then
      ["\n\n---\n" ++ statsEmoji ++ " **Token Usage**: Not available in response\n---"]
     else []), costs, none)

/-- The body of the `try` block of `Pipe.pipe`: fragments yielded,
final state, and the exception escaping the block (if any). -/
def pipeTry (v : Valves) (st : PipeState) (body user : J) (net : NetOutcome) :
    List String × PipeState × Option PyExc :=
  match getConversationId v body user with
  | .error e => ([], st, some e)
  | .ok conv_id =>
  match getNextApiKey v.API_KEYS st.api_key_index with
  | .error e => ([], st, some e)
  | .ok kidx =>
  let st1 : PipeState := { st with api_key_index := kidx.2 }
  match pyIndex body "model" with
  | .error e => ([], st1, some e)
  | .ok mJ =>
  match mJ with
  | .str ms =>
    let model_id := modelSuffix ms
    if model_id ∈ openai_response_models then
      match pyIndex body "messages" with
      | .error e => ([], st1, some e)
      | .ok msJ =>
      match pyIter msJ with
      | .error e => ([], st1, some e)
      | .ok msgs =>
      match transformMessages msgs with
      | .error e => ([], st1, some e)
      | .ok _input =>
      let current_message_number : Int :=
        match List.lookup conv_id st1.conversation_costs with
        | some cs => cs.message_count + 1
        | none => 1
      let processing := procEmoji ++ " Processing with " ++ model_id ++ " (Message #" ++
        toString current_message_number ++ " in conversation)...\n\n"
      match net with
      | .timeout => ([processing], st1, some .timeout)
      | .resp code text jsonOpt =>
        if code ≠ 200 then
          ([processing, "Error: " ++ toString code ++ " " ++ text], st1, none)
        else
          match jsonOpt with
          | none => ([processing], st1, some (.exc "Expecting value: line 1 column 1 (char 0)"))
          | some response_data =>
            let r := respond v st1.conversation_costs conv_id model_id response_data
            (processing :: r.1, { st1 with conversation_costs := r.2.1 }, r.2.2)
    else
      (["Error: Model " ++ model_id ++
        " not supported. Only o1-pro and o3-pro are available."], st1, none)
  | mJ' =>
    -- `body["model"].find(".")` on a non-string raises AttributeError
    ([], st1, some (.exc (squoteS ++ mJ'.typeName ++ squoteS ++
      " object has no attribute " ++ squoteS ++ "find" ++ squoteS)))

/-- `Pipe.pipe`: the `try` body plus the two `except` handlers
(`httpx.TimeoutException`, then `Exception`), which append one final
error fragment. -/
def pipe (v : Valves) (st : PipeState) (body user : J) (net : NetOutcome) :
    List String × PipeState :=
  match pipeTry v st body user net with
  | (frags, st', none) => (frags, st')
  | (frags, st', some .timeout) =>
    (frags ++ ["Error: Request timed out after " ++ toString v.TIMEOUT_SECONDS ++
      " seconds."], st')
  | (frags, st', some (.exc msg)) => (frags ++ ["Error: " ++ msg], st')

/-! ### Small helpers for theorem statements -/

/-- Is an `Except` an `ok`? -/
def isOkb {α : Type} : PyRes α → Bool
  | .ok _ => true
  | .error _ => false

/-- Is an `Except String` an `ok` with a non-empty string? -/
def okNonempty : PyRes String → Bool
  | .ok s => s ≠ ""
  | .error _ => false

/-- Does a string begin with `"Error:"`?  (Stated over the character
list so that concrete instances evaluate.) -/
def startsWithError (s : String) : Bool := "Error:".data.isPrefixOf s.data

/-- The substituted-then-truncated message key used in the hash input:
`"no_message"` when no user message exists or its text is empty,
otherwise the first 50 characters. -/
def fumKey (fum : Option String) : String :=
  strTake
    (match fum with
     | none => "no_message"
     | some s => if s = "" then "no_message" else s) 50

/-! ### Concrete scenario values used by counterexamples and witnesses -/

/-- The message-number string yielded before the network call. -/
def processingFrag (costs : List (String × ConvCost)) (conv_id model_id : String) : String :=
  procEmoji ++ " Processing with " ++ model_id ++ " (Message #" ++
    toString (match List.lookup conv_id costs with
              | some cs => cs.message_count + 1
              | none => 1) ++ " in conversation)...\n\n"

def c1v : Valves := { API_KEYS := "k" }

def c1st : PipeState := ⟨0, []⟩

def c1Body : J := J.obj [("model", J.str "m.o3-pro"),
  ("messages", J.arr [J.obj [("role", J.str "user"), ("content", J.str "hi")]])]

def c1User : J := J.obj [("id", J.str "u")]

/-- A 200 response whose `usage.total_tokens` is a string: the cost is
computed and the account updated, then `f"{total_tokens:,}"` raises. -/
def c1BadResp : J := J.obj [("output_text", J.str "hello!"),
  ("usage", J.obj [("input_tokens", J.num 5), ("output_tokens", J.num 5),
                   ("total_tokens", J.str "x")])]

def c1GoodResp : J := J.obj [("output_text", J.str "hello!"),
  ("usage", J.obj [("input_tokens", J.num 1000000), ("output_tokens", J.num 1000000),
                   ("total_tokens", J.num 2000000)])]

/-! ## Theorems -/

/-- Claim C2: the per-message cost is `input_tokens/1e6 * input_price +
output_tokens/1e6 * output_price`, plus `reasoning_tokens/1e6 *
output_price` exactly when `reasoning_tokens > 0` and the model is the
reasoning-billed variant `"o3-pro"` (no extra term for `"o1-pro"`); for
`"o3-pro"` with one million input and output tokens and no reasoning
tokens the cost is exactly 100; a model id absent from the pricing table
costs 0 with no error. -/
theorem C2_cost_formula :
    (∀ tin tout treas : ℚ, treas > 0 →
      computeCost "o3-pro" tin tout treas =
        tin / 1000000 * 20 + tout / 1000000 * 80 + treas / 1000000 * 80) ∧
    (∀ tin tout treas : ℚ, ¬ treas > 0 →
      computeCost "o3-pro" tin tout treas = tin / 1000000 * 20 + tout / 1000000 * 80) ∧
    (∀ tin tout treas : ℚ, computeCost "o1-pro" tin tout treas =
        tin / 1000000 * 150 + tout / 1000000 * 600) ∧
    computeCost "o3-pro" 1000000 1000000 0 = 100 ∧
    (∀ m, List.lookup m pricing = none →
      ∀ tin tout treas : ℚ, computeCost m tin tout treas = 0) := by
  have h3 : List.lookup "o3-pro" pricing = some (20, 80) := rfl
  have h1 : List.lookup "o1-pro" pricing = some (150, 600) := rfl
  refine ⟨?_, ?_, ?_, ?_, ?_⟩
  · intro tin tout treas h
    simp only [computeCost, h3]
    rw [if_pos ⟨h, trivial⟩]
  · intro tin tout treas h
    simp only [computeCost, h3]
    rw [if_neg (fun hc => h hc.1)]
    ring
  · intro tin tout treas
    simp only [computeCost, h1]
    rw [if_neg (fun hc => by simp at hc)]
    ring
  · norm_num [computeCost, h3]
  · intro m hm tin tout treas
    simp only [computeCost, hm]

/-- Witness for C2 at concrete token counts. -/
theorem C2_witness :
    computeCost "o3-pro" 1 2 3 =
      1 / 1000000 * 20 + 2 / 1000000 * 80 + 3 / 1000000 * 80 ∧
    computeCost "gpt-4" 5 6 7 = 0 :=
  ⟨C2_cost_formula.1 1 2 3 (by norm_num), C2_cost_formula.2.2.2.2 "gpt-4" rfl 5 6 7⟩

lemma findDot_no_dot (l : List Char) (h : ∀ c ∈ l, c ≠ '.') : findDot l = none := by
  induction l with
  | nil => rfl
  | cons c cs ih =>
    simp only [findDot, if_neg (h c (by simp))]
    rw [ih (fun x hx => h x (by simp [hx]))]
    rfl

lemma findDot_append_dot (l1 l2 : List Char) (h : ∀ c ∈ l1, c ≠ '.') :
    findDot (l1 ++ '.' :: l2) = some l1.length := by
  induction l1 with
  | nil => simp [findDot]
  | cons c cs ih =>
    simp only [List.cons_append, findDot, if_neg (h c (by simp)), List.append_eq]
    rw [ih (fun x hx => h x (by simp [hx]))]
    simp

/-- Claim C7 (amended): `pipe` resolves the target model identifier as
the suffix of `body["model"]` after the FIRST dot (the whole string when
no dot is present), not after the last dot as the claim states. -/
theorem C7_amended :
    (∀ a b : String, (∀ c ∈ a.data, c ≠ '.') → modelSuffix (a ++ "." ++ b) = b) ∧
    (∀ s : String, (∀ c ∈ s.data, c ≠ '.') → modelSuffix s = s) := by
  constructor
  · intro a b h
    have hd : (a ++ "." ++ b).data = a.data ++ '.' :: b.data := by
      simp [String.data_append]
    simp only [modelSuffix, hd, findDot_append_dot a.data b.data h]
    have : a.data ++ '.' :: b.data = (a.data ++ ['.']) ++ b.data := by simp
    rw [this]
    have hlen : a.data.length + 1 = (a.data ++ ['.']).length := by simp
    rw [hlen, List.drop_left]
  · intro s h
    simp [modelSuffix, findDot_no_dot s.data h]

/-- Claim C7 counterexample: on `"x.y.o3-pro"` the code keeps
`"y.o3-pro"` (after the first dot) while the spec's last-dot rule gives
`"o3-pro"`; the two differ, and only the latter is a supported model. -/
theorem C7_counterexample :
    modelSuffix "x.y.o3-pro" = "y.o3-pro" ∧ modelSuffixSpec "x.y.o3-pro" = "o3-pro" ∧
    "y.o3-pro" ≠ "o3-pro" ∧ "o3-pro" ∈ openai_response_models ∧
    "y.o3-pro" ∉ openai_response_models :=
  ⟨rfl, by decide, by decide, by decide, by decide⟩

/-- Witness for C7's amended theorem at a concrete dotted id. -/
theorem C7_witness : modelSuffix ("x" ++ "." ++ "y.o3-pro") = "y.o3-pro" :=
  C7_amended.1 "x" "y.o3-pro" (by decide)

lemma lookup_mem_key (k : String) (v : J) :
    ∀ kvs : List (String × J), List.lookup k kvs = some v →
      kvs.any (fun kv => kv.1 = k) = true := by
  intro kvs h
  induction kvs with
  | nil => simp [List.lookup] at h
  | cons a l ih =>
    rw [List.any_cons]
    cases hbeq : (k == a.1) with
    | true =>
      simp [eq_of_beq hbeq]
    | false =>
      have : List.lookup k l = some v := by
        cases a with
        | mk a1 a2 => simpa [List.lookup, hbeq] using h
      simp [ih this]

/-- Claim C5: extraction stops at the first method yielding non-empty
text: a present, non-empty top-level `output_text` is returned whatever
else the body holds (so `{"output_text": "A"}` yields `"A"` without
inspecting `output`), and with no `output_text` key the assistant
message item in `output` yields `"B"`. -/
theorem C5_extraction_fallback :
    (∀ (kvs : List (String × J)) (s : String), s ≠ "" →
      List.lookup "output_text" kvs = some (J.str s) →
      extractOutputText (J.obj kvs) = .ok (J.str s)) ∧
    extractOutputText (J.obj [("output",
      J.arr [J.obj [("type", J.str "message"), ("role", J.str "assistant"),
        ("content", J.arr [J.obj [("type", J.str "output_text"),
          ("text", J.str "B")]])]])]) = .ok (J.str "B") := by
  constructor
  · intro kvs s hs hl
    have hany := lookup_mem_key _ _ kvs hl
    simp [extractOutputText, pyContains, hany, pyIndex, hl, J.truthy, hs,
      Bind.bind, Except.bind, pure, Except.pure]
  · rfl

theorem C5_witness :
    extractOutputText (J.obj [("output_text", J.str "A"), ("output", J.num 99)]) =
      .ok (J.str "A") :=
  C5_extraction_fallback.1 [("output_text", J.str "A"), ("output", J.num 99)] "A"
    (by decide) rfl

lemma runKeys_spec (apiKeys : String) (hk : splitKeys apiKeys ≠ []) :
    ∀ (n idx : Nat),
      (runKeys apiKeys n idx).1 =
        (List.range n).map (fun i =>
          (splitKeys apiKeys).getD ((idx + i) % (splitKeys apiKeys).length) "") ∧
      (runKeys apiKeys n idx).2 = idx + n := by
  intro n
  induction n with
  | zero => intro idx; simp [runKeys]
  | succ m ih =>
    intro idx
    have hnext : getNextApiKey apiKeys idx =
        .ok ((splitKeys apiKeys).getD (idx % (splitKeys apiKeys).length) "", idx + 1) := by
      simp [getNextApiKey, hk]
    constructor
    · simp only [runKeys, hnext]
      rw [(ih (idx + 1)).1, List.range_succ_eq_map, List.map_cons, List.map_map]
      congr 1
      refine List.map_congr_left (fun a _ => ?_)
      have h' : idx + 1 + a = idx + (a + 1) := by omega
      simp only [Function.comp_apply, h']
    · simp only [runKeys, hnext]
      rw [(ih (idx + 1)).2]
      omega

lemma countRangeMod (K j : Nat) (hK : 0 < K) (hj : j < K) :
    ∀ N, ((List.range N).filter (fun i => i % K = j)).length =
      N / K + (if j < N % K then 1 else 0) := by
  intro N
  induction N with
  | zero => simp
  | succ n ih =>
    rw [List.range_succ, List.filter_append, List.length_append, ih]
    have hf : (List.filter (fun i => i % K = j) [n]).length =
        if n % K = j then 1 else 0 := by
      by_cases hnj : n % K = j <;> simp [hnj]
    rw [hf]
    have hr : n % K < K := Nat.mod_lt _ hK
    have hdm : K * (n / K) + n % K = n := Nat.div_add_mod n K
    rcases Nat.lt_or_ge (n % K + 1) K with hlt | hge
    · have h1 : (n + 1) / K = n / K := by
        conv_lhs => rw [← hdm]
        rw [Nat.add_assoc, Nat.mul_add_div hK, Nat.div_eq_of_lt hlt]
        omega
      have h2 : (n + 1) % K = n % K + 1 := by
        conv_lhs => rw [← hdm]
        rw [Nat.add_assoc, Nat.mul_add_mod, Nat.mod_eq_of_lt hlt]
      rw [h1, h2]
      split_ifs <;> omega
    · have hKr : n % K + 1 = K := by omega
      have h1 : (n + 1) / K = n / K + 1 := by
        conv_lhs => rw [← hdm]
        rw [Nat.add_assoc, hKr, ← Nat.mul_succ, Nat.mul_div_cancel_left _ hK]
      have h2 : (n + 1) % K = 0 := by
        conv_lhs => rw [← hdm]
        rw [Nat.add_assoc, hKr, ← Nat.mul_succ, Nat.mul_mod_right]
      rw [h1, h2]
      split_ifs <;> omega

/-- Claim C4: from a fresh cursor 0 over K ≥ 1 configured credentials,
N calls return credentials in cyclic index order `0,1,...,K-1,0,...`
(call i selects index `i % K`), each index is selected exactly `N / K`
or `N / K + 1` times, and each call selects `keys[cursor % K]` and then
increments the cursor by one. -/
theorem C4_round_robin (apiKeys : String) (N : Nat) (hk : splitKeys apiKeys ≠ []) :
    ((runKeys apiKeys N 0).1 =
      (List.range N).map (fun i =>
        (splitKeys apiKeys).getD (i % (splitKeys apiKeys).length) "")) ∧
    ((runKeys apiKeys N 0).2 = N) ∧
    (∀ j, j < (splitKeys apiKeys).length →
      ((List.range N).filter (fun i => i % (splitKeys apiKeys).length = j)).length =
        N / (splitKeys apiKeys).length ∨
      ((List.range N).filter (fun i => i % (splitKeys apiKeys).length = j)).length =
        N / (splitKeys apiKeys).length + 1) ∧
    (∀ idx, getNextApiKey apiKeys idx =
      .ok ((splitKeys apiKeys).getD (idx % (splitKeys apiKeys).length) "", idx + 1)) := by
  have hK : 0 < (splitKeys apiKeys).length := List.length_pos.mpr hk
  refine ⟨?_, ?_, ?_, ?_⟩
  · have h := (runKeys_spec apiKeys hk N 0).1
    simpa using h
  · simpa using (runKeys_spec apiKeys hk N 0).2
  · intro j hj
    rw [countRangeMod _ j hK hj N]
    split_ifs <;> simp
  · intro idx
    simp [getNextApiKey, hk]

theorem C4_witness :
    (runKeys "ka, kb" 5 0).1 = ["ka", "kb", "ka", "kb", "ka"] ∧
    ((List.range 5).filter (fun i => i % (splitKeys "ka, kb").length = 0)).length = 3 := by
  have h := C4_round_robin "ka, kb" 5 (by decide)
  constructor
  · rw [h.1]; decide
  · rcases h.2.2.1 0 (by decide) with h0 | h0
    · exact absurd h0 (by decide)
    · rw [h0]; decide

lemma getConversationId_eq (v : Valves) (body user : J) (msgs : List J)
    (fum : Option String)
    (hm : pyGetD body "messages" (J.arr []) = .ok (J.arr msgs))
    (hf : firstUserMessage msgs = .ok fum)
    (hok : isOkb (getConversationId v body user) = true) :
    ∃ uidJ, pyGetD user "id" (J.str "unknown") = .ok uidJ ∧
      getConversationId v body user = .ok (convIdOf (pyStr uidJ) (fumKey fum)) := by
  unfold getConversationId at hok ⊢
  rw [hm] at hok ⊢
  simp only [Bind.bind, Except.bind, pyIter] at hok ⊢
  rw [hf] at hok ⊢
  generalize huid : pyGetD user "id" (J.str "unknown") = uidR at hok ⊢
  cases uidR with
  | error e =>
    simp [isOkb] at hok
  | ok uidJ =>
    refine ⟨uidJ, rfl, ?_⟩
    dsimp only at hok ⊢
    cases hdbg : v.DEBUG_MODE with
    | false =>
      simp [fumKey]
    | true =>
      simp only [if_true] at hok ⊢
      generalize hcnt : countUserMsgs msgs = cntR at hok ⊢
      cases cntR with
      | error e =>
        simp [isOkb, hdbg] at hok
      | ok n =>
        simp [fumKey]

lemma strTake50_eq_empty (s : String) (h : strTake s 50 = "") : s = "" := by
  have hd : s.data.take 50 = [] := congrArg String.data h
  have hn : s.data = [] := by
    cases hl : s.data with
    | nil => rfl
    | cons c cs => rw [hl] at hd; simp at hd
  cases s with
  | mk d =>
    simp only at hn
    rw [hn]

/-- Claim C3: conversation-identifier derivation is a deterministic
function of the user record and the first 50 characters of the first
user message's text: whenever two histories' first user messages agree
on those 50 characters and both derivations succeed, they yield the
same identifier, regardless of all later messages (and of the valves,
which only control diagnostic logging). -/
theorem C3_conv_id_prefix_deterministic
    (v1 v2 : Valves) (body1 body2 user : J) (msgs1 msgs2 : List J) (s1 s2 : String)
    (hm1 : pyGetD body1 "messages" (J.arr []) = .ok (J.arr msgs1))
    (hm2 : pyGetD body2 "messages" (J.arr []) = .ok (J.arr msgs2))
    (hf1 : firstUserMessage msgs1 = .ok (some s1))
    (hf2 : firstUserMessage msgs2 = .ok (some s2))
    (hpre : strTake s1 50 = strTake s2 50)
    (hok1 : isOkb (getConversationId v1 body1 user) = true)
    (hok2 : isOkb (getConversationId v2 body2 user) = true) :
    getConversationId v1 body1 user = getConversationId v2 body2 user := by
  obtain ⟨u1, hu1, he1⟩ :=
    getConversationId_eq v1 body1 user msgs1 (some s1) hm1 hf1 hok1
  obtain ⟨u2, hu2, he2⟩ :=
    getConversationId_eq v2 body2 user msgs2 (some s2) hm2 hf2 hok2
  have huu : u1 = u2 := by
    rw [hu1] at hu2
    exact Except.ok.inj hu2
  have hkey : fumKey (some s1) = fumKey (some s2) := by
    unfold fumKey
    by_cases h1 : s1 = ""
    · have h2 : s2 = "" := by
        apply strTake50_eq_empty
        rw [← hpre, h1]
        decide
      simp [h1, h2]
    · by_cases h2 : s2 = ""
      · exact absurd (strTake50_eq_empty s1 (by rw [hpre, h2]; decide)) h1
      · simpa [h1, h2] using hpre
  rw [he1, he2, huu, hkey]

theorem C3_witness :
    getConversationId {} (J.obj [("messages", J.arr [J.obj [("role", J.str "user"),
        ("content", J.str "aaaaaaaaaaaaaaaaaaaaaaaaaaaaaaaaaaaaaaaaaaaaaaaaaaX")]])])
      (J.obj [("id", J.str "u")]) =
    getConversationId {} (J.obj [("messages", J.arr [J.obj [("role", J.str "user"),
        ("content", J.str "aaaaaaaaaaaaaaaaaaaaaaaaaaaaaaaaaaaaaaaaaaaaaaaaaaY")],
      J.obj [("role", J.str "assistant"), ("content", J.str "later differs")]])])
      (J.obj [("id", J.str "u")]) :=
  C3_conv_id_prefix_deterministic {} {} _ _ _ _ _
    "aaaaaaaaaaaaaaaaaaaaaaaaaaaaaaaaaaaaaaaaaaaaaaaaaaX"
    "aaaaaaaaaaaaaaaaaaaaaaaaaaaaaaaaaaaaaaaaaaaaaaaaaaY"
    rfl rfl rfl rfl (by decide) (by decide) (by decide)

/-- Claim C10: a first user message with empty textual content (empty
string, or a parts list with no text parts) is treated exactly like a
history with no user message: both hash the placeholder `"no_message"`
and receive the same derived identifier for the same user. -/
theorem C10_empty_first_user (v1 v2 : Valves) (body1 body2 user : J)
    (msgs1 msgs2 : List J)
    (hm1 : pyGetD body1 "messages" (J.arr []) = .ok (J.arr msgs1))
    (hm2 : pyGetD body2 "messages" (J.arr []) = .ok (J.arr msgs2))
    (hf1 : firstUserMessage msgs1 = .ok (some ""))
    (hf2 : firstUserMessage msgs2 = .ok none)
    (hok1 : isOkb (getConversationId v1 body1 user) = true)
    (hok2 : isOkb (getConversationId v2 body2 user) = true) :
    getConversationId v1 body1 user = getConversationId v2 body2 user ∧
    (∀ uidJ, pyGetD user "id" (J.str "unknown") = .ok uidJ →
      getConversationId v1 body1 user = .ok (convIdOf (pyStr uidJ) "no_message")) := by
  obtain ⟨u1, hu1, he1⟩ :=
    getConversationId_eq v1 body1 user msgs1 (some "") hm1 hf1 hok1
  obtain ⟨u2, hu2, he2⟩ :=
    getConversationId_eq v2 body2 user msgs2 none hm2 hf2 hok2
  have hkey : fumKey (some "") = fumKey none := by decide
  have hnm : fumKey none = "no_message" := by decide
  constructor
  · rw [he1, he2, hkey]
    have huu : u1 = u2 := by
      rw [hu1] at hu2
      exact Except.ok.inj hu2
    rw [huu]
  · intro uidJ huid
    rw [hu1] at huid
    rw [he1, hkey, hnm, Except.ok.inj huid]

theorem C10_witness :
    getConversationId {} (J.obj [("messages", J.arr [J.obj [("role", J.str "user"),
        ("content", J.arr [J.obj [("type", J.str "image_url"),
          ("image_url", J.obj [("url", J.str "http://x")])]])]])])
      (J.obj [("id", J.str "u")]) =
    getConversationId {} (J.obj [("messages", J.arr [])])
      (J.obj [("id", J.str "u")]) :=
  (C10_empty_first_user {} {}
    (J.obj [("messages", J.arr [J.obj [("role", J.str "user"),
      ("content", J.arr [J.obj [("type", J.str "image_url"),
        ("image_url", J.obj [("url", J.str "http://x")])]])]])])
    (J.obj [("messages", J.arr [])])
    (J.obj [("id", J.str "u")])
    [J.obj [("role", J.str "user"),
      ("content", J.arr [J.obj [("type", J.str "image_url"),
        ("image_url", J.obj [("url", J.str "http://x")])]])]]
    []
    rfl rfl rfl rfl (by decide) (by decide)).1

lemma isOkb_exists {α : Type} (r : PyRes α) (h : isOkb r = true) : ∃ a, r = .ok a := by
  cases r with
  | ok a => exact ⟨a, rfl⟩
  | error e => simp [isOkb] at h

lemma pipe_no_keys (v : Valves) (st : PipeState) (body user : J) (net : NetOutcome)
    (hk : splitKeys v.API_KEYS = [])
    (hc : isOkb (getConversationId v body user) = true) :
    pipe v st body user net = (["Error: No API keys configured"], st) := by
  obtain ⟨cid, hcid⟩ := isOkb_exists _ hc
  unfold pipe pipeTry
  rw [hcid]
  simp [getNextApiKey, hk]

lemma pipe_unsupported (v : Valves) (st : PipeState) (body user : J) (ms : String)
    (hc : isOkb (getConversationId v body user) = true)
    (hk : splitKeys v.API_KEYS ≠ [])
    (hmod : pyIndex body "model" = .ok (J.str ms))
    (hns : modelSuffix ms ∉ openai_response_models) (net : NetOutcome) :
    pipe v st body user net =
      (["Error: Model " ++ modelSuffix ms ++
        " not supported. Only o1-pro and o3-pro are available."],
       { st with api_key_index := st.api_key_index + 1 }) := by
  obtain ⟨cid, hcid⟩ := isOkb_exists _ hc
  unfold pipe pipeTry
  rw [hcid, hmod]
  simp [getNextApiKey, hk, hns]

/-- Claim C6 counterexample: with no credentials configured, `pipe`
does NOT propagate the configuration error uncaught — the broad
`except Exception` handler catches the `ValueError` and reports it as
the text fragment `"Error: No API keys configured"`, like every other
error category. -/
theorem C6_counterexample :
    pipe {} ⟨0, []⟩ (J.obj [("messages", J.arr [])]) (J.obj []) NetOutcome.timeout =
      (["Error: No API keys configured"], ⟨0, []⟩) ∧
    startsWithError "Error: No API keys configured" = true := by
  constructor
  · decide
  · decide

/-- Claim C6 (amended): when the comma-separated credential string has
no non-empty entries (and conversation-id derivation succeeds), the
`ValueError` is caught by the generic handler and the call yields the
single fragment `"Error: No API keys configured"`, leaving the state
unchanged; nothing propagates to the host. -/
theorem C6_config_error_reported (v : Valves) (st : PipeState) (body user : J)
    (net : NetOutcome)
    (hk : splitKeys v.API_KEYS = [])
    (hc : isOkb (getConversationId v body user) = true) :
    pipe v st body user net = (["Error: No API keys configured"], st) :=
  pipe_no_keys v st body user net hk hc

theorem C6_witness :
    pipe { API_KEYS := " , " } ⟨7, []⟩ (J.obj [("messages", J.arr [])]) (J.obj [])
      NetOutcome.timeout = (["Error: No API keys configured"], ⟨7, []⟩) :=
  C6_config_error_reported { API_KEYS := " , " } ⟨7, []⟩
    (J.obj [("messages", J.arr [])]) (J.obj []) NetOutcome.timeout
    (by decide) (by decide)

/-- Claim C8: with at least one configured credential and a resolved
model suffix outside the supported set, `pipe` produces exactly one
fragment (the unsupported-model error text), the result is independent
of the network outcome (no request is consulted), and the
conversation-cost map is unchanged (only the credential cursor moves). -/
theorem C8_unsupported_model (v : Valves) (st : PipeState) (body user : J) (ms : String)
    (hc : isOkb (getConversationId v body user) = true)
    (hk : splitKeys v.API_KEYS ≠ [])
    (hmod : pyIndex body "model" = .ok (J.str ms))
    (hns : modelSuffix ms ∉ openai_response_models) :
    ∀ net : NetOutcome, pipe v st body user net =
      (["Error: Model " ++ modelSuffix ms ++
        " not supported. Only o1-pro and o3-pro are available."],
       { st with api_key_index := st.api_key_index + 1 }) :=
  fun net => pipe_unsupported v st body user ms hc hk hmod hns net

theorem C8_witness :
    pipe { API_KEYS := "k" } ⟨0, []⟩
      (J.obj [("model", J.str "x.gpt-4"), ("messages", J.arr [])]) (J.obj [])
      NetOutcome.timeout =
      (["Error: Model gpt-4 not supported. Only o1-pro and o3-pro are available."],
       ⟨1, []⟩) := by
  have h := C8_unsupported_model { API_KEYS := "k" } ⟨0, []⟩
    (J.obj [("model", J.str "x.gpt-4"), ("messages", J.arr [])]) (J.obj []) "x.gpt-4"
    (by decide) (by decide) rfl (by decide) NetOutcome.timeout
  rw [h]
  decide

lemma pipeTry_reach (v : Valves) (st : PipeState) (body user : J) (cid ms : String)
    (msJ : J) (msgs input : List J)
    (hc : getConversationId v body user = .ok cid)
    (hk : splitKeys v.API_KEYS ≠ [])
    (hmod : pyIndex body "model" = .ok (J.str ms))
    (hsup : modelSuffix ms ∈ openai_response_models)
    (hmsgs : pyIndex body "messages" = .ok msJ)
    (hit : pyIter msJ = .ok msgs)
    (ht : transformMessages msgs = .ok input) (net : NetOutcome) :
    pipeTry v st body user net =
      (let st1 : PipeState := { st with api_key_index := st.api_key_index + 1 }
       let processing := processingFrag st.conversation_costs cid (modelSuffix ms)
       match net with
       | .timeout => ([processing], st1, some .timeout)
       | .resp code text jsonOpt =>
         if code ≠ 200 then
           ([processing, "Error: " ++ toString code ++ " " ++ text], st1, none)
         else
           match jsonOpt with
           | none =>
             ([processing], st1, some (.exc "Expecting value: line 1 column 1 (char 0)"))
           | some rd =>
             let r := respond v st.conversation_costs cid (modelSuffix ms) rd
             (processing :: r.1, { st1 with conversation_costs := r.2.1 }, r.2.2)) := by
  unfold pipeTry
  simp only [hc, hmod, getNextApiKey, if_neg hk, if_pos hsup, hmsgs, hit, ht,
    processingFrag]

lemma respond_eq_usage (v : Valves) (costs : List (String × ConvCost)) (cid mid : String)
    (rd ot status usage_data : J) (reasonOpt : Option J) (items : List J)
    (qin qout qr : ℚ) (pp : ℚ × ℚ)
    (h0 : debugKeysCheck v rd = .ok ())
    (h1 : extractOutputText rd = .ok ot)
    (h2 : pyGetD rd "status" (J.str "completed") = .ok status)
    (h3 : incompleteReason rd status = .ok reasonOpt)
    (h4 : pyGetD rd "output" (J.arr []) >>= pyIter = .ok items)
    (h5 : pyGetD rd "usage" (J.obj []) = .ok usage_data)
    (h6 : usage_data.truthy = true)
    (h7 : List.lookup mid pricing = some pp)
    (h8 : tokensCalc usage_data = .ok (qin, qout, qr)) :
    respond v costs cid mid rd =
      (let fragsA := frag1Of ot :: (incFragsOf v reasonOpt ++ toolFragsOf items)
       let cost := computeCost mid qin qout qr
       let costs' := updateConversationCost costs cid cost qin qout qr
       match formatTokenStats v costs' usage_data mid status (reasonJOf reasonOpt)
           cid cost with
       | .error e => (fragsA, costs', some e)
       | .ok stats => (fragsA ++ (if stats ≠ "" then [stats] else []), costs', none)) := by
  unfold respond
  simp only [h0, h1, h2, h3, h4, h5, h6, h7, h8, if_true]

lemma respond_costs_cases (v : Valves) (costs : List (String × ConvCost))
    (cid mid : String) (rd : J) :
    (respond v costs cid mid rd).2.1 = costs ∨
    ∃ qin qout qr, (respond v costs cid mid rd).2.1 =
      updateConversationCost costs cid (computeCost mid qin qout qr) qin qout qr := by
  unfold respond
  cases h0 : debugKeysCheck v rd with
  | error e => left; rfl
  | ok u =>
  cases u
  dsimp only
  cases h1 : extractOutputText rd with
  | error e => left; rfl
  | ok ot =>
  dsimp only
  cases h2 : pyGetD rd "status" (J.str "completed") with
  | error e => left; rfl
  | ok status =>
  dsimp only
  cases h3 : incompleteReason rd status with
  | error e => left; rfl
  | ok reasonOpt =>
  dsimp only
  cases h4 : pyGetD rd "output" (J.arr []) >>= pyIter with
  | error e => left; rfl
  | ok items =>
  dsimp only
  cases h5 : pyGetD rd "usage" (J.obj []) with
  | error e => left; rfl
  | ok usage_data =>
  dsimp only
  cases h6 : usage_data.truthy with
  | false => left; simp [h6]
  | true =>
  simp only [h6, if_true]
  cases h7 : List.lookup mid pricing with
  | none =>
    dsimp only
    cases h9 : formatTokenStats v costs usage_data mid status (reasonJOf reasonOpt)
        cid 0 with
    | error e => left; rfl
    | ok stats => left; rfl
  | some pp =>
  dsimp only
  cases h8 : tokensCalc usage_data with
  | error e => left; rfl
  | ok t =>
  obtain ⟨qin, qout, qr⟩ := t
  dsimp only
  cases h9 : formatTokenStats v
      (updateConversationCost costs cid (computeCost mid qin qout qr) qin qout qr)
      usage_data mid status (reasonJOf reasonOpt) cid (computeCost mid qin qout qr) with
  | error e => right; exact ⟨qin, qout, qr, rfl⟩
  | ok stats => right; exact ⟨qin, qout, qr, rfl⟩

lemma pipe_state_eq (v : Valves) (st : PipeState) (body user : J) (net : NetOutcome) :
    (pipe v st body user net).2 = (pipeTry v st body user net).2.1 := by
  unfold pipe
  cases hpt : pipeTry v st body user net with
  | mk frags rest =>
    obtain ⟨st', exc⟩ := rest
    cases exc with
    | none => rfl
    | some e => cases e <;> rfl


lemma isPrefixOf_append (l s t : List Char) (h : l.isPrefixOf s = true) :
    l.isPrefixOf (s ++ t) = true := by
  induction l generalizing s with
  | nil => simp [List.isPrefixOf]
  | cons c cs ih =>
    cases s with
    | nil => simp [List.isPrefixOf] at h
    | cons d ds =>
      simp only [List.isPrefixOf, List.cons_append, Bool.and_eq_true] at h ⊢
      exact ⟨h.1, ih ds h.2⟩

lemma startsWithError_append (s t : String) (h : startsWithError s = true) :
    startsWithError (s ++ t) = true := by
  unfold startsWithError at h ⊢
  rw [String.data_append]
  exact isPrefixOf_append _ _ _ h

lemma getLast?_cons_concat {α : Type} (a : α) (l : List α) (x : α) :
    (a :: (l ++ [x])).getLast? = some x := by
  rw [← List.cons_append, List.getLast?_concat]

lemma pipe_costs_master (v : Valves) (st : PipeState) (body user : J) (net : NetOutcome) :
    (pipe v st body user net).2.conversation_costs = st.conversation_costs ∨
    ∃ text rd cid ms msJ msgs input,
      net = NetOutcome.resp 200 text (some rd) ∧
      getConversationId v body user = .ok cid ∧
      splitKeys v.API_KEYS ≠ [] ∧
      pyIndex body "model" = .ok (J.str ms) ∧
      modelSuffix ms ∈ openai_response_models ∧
      pyIndex body "messages" = .ok msJ ∧
      pyIter msJ = .ok msgs ∧
      transformMessages msgs = .ok input ∧
      (pipe v st body user net).2.conversation_costs =
        (respond v st.conversation_costs cid (modelSuffix ms) rd).2.1 := by
  rw [pipe_state_eq]
  unfold pipeTry
  cases hc : getConversationId v body user with
  | error e => left; rfl
  | ok cid =>
  dsimp only
  cases hknext : getNextApiKey v.API_KEYS st.api_key_index with
  | error e => left; rfl
  | ok kidx =>
  have hk : splitKeys v.API_KEYS ≠ [] := by
    intro h
    simp [getNextApiKey, h] at hknext
  dsimp only
  cases hmod : pyIndex body "model" with
  | error e => left; rfl
  | ok mJ =>
  dsimp only
  cases mJ with
  | str ms =>
    dsimp only
    by_cases hsup : modelSuffix ms ∈ openai_response_models
    · rw [if_pos hsup]
      cases hmsgs : pyIndex body "messages" with
      | error e => left; rfl
      | ok msJ =>
      dsimp only
      cases hit : pyIter msJ with
      | error e => left; rfl
      | ok msgs =>
      dsimp only
      cases ht : transformMessages msgs with
      | error e => left; rfl
      | ok input =>
      dsimp only
      cases net with
      | timeout => left; rfl
      | resp code text jsonOpt =>
        dsimp only
        by_cases hcode : code ≠ 200
        · rw [if_pos hcode]; left; rfl
        · rw [if_neg hcode]
          have h200 : code = 200 := not_not.mp hcode
          subst h200
          cases jsonOpt with
          | none => left; rfl
          | some rd =>
            right
            exact ⟨text, rd, cid, ms, msJ, msgs, input, rfl, rfl, hk, rfl, hsup,
              rfl, hit, ht, rfl⟩
    · rw [if_neg hsup]; left; rfl
  | null => left; rfl
  | bool b => left; rfl
  | num q => left; rfl
  | arr xs => left; rfl
  | obj kvs => left; rfl

lemma respond_frags_cons (v : Valves) (costs : List (String × ConvCost))
    (cid mid : String) (rd ot : J)
    (h0 : debugKeysCheck v rd = .ok ())
    (h1 : extractOutputText rd = .ok ot) :
    ∃ rest, (respond v costs cid mid rd).1 = frag1Of ot :: rest := by
  unfold respond
  rw [h0, h1]
  dsimp only
  cases h2 : pyGetD rd "status" (J.str "completed") with
  | error e => exact ⟨[], rfl⟩
  | ok status =>
  dsimp only
  cases h3 : incompleteReason rd status with
  | error e => exact ⟨[], rfl⟩
  | ok reasonOpt =>
  dsimp only
  cases h4 : pyGetD rd "output" (J.arr []) >>= pyIter with
  | error e => exact ⟨incFragsOf v reasonOpt, rfl⟩
  | ok items =>
  dsimp only
  cases h5 : pyGetD rd "usage" (J.obj []) with
  | error e => exact ⟨incFragsOf v reasonOpt ++ toolFragsOf items, rfl⟩
  | ok usage_data =>
  cases h6 : usage_data.truthy with
  | false =>
    refine ⟨incFragsOf v reasonOpt ++ toolFragsOf items ++
      (if v.SHOW_TOKEN_STATS then
        ["\n\n---\n" ++ statsEmoji ++ " **Token Usage**: Not available in response\n---"]
       else []), ?_⟩
    simp [h6]
  | true =>
  simp only [h6, if_true]
  cases h7 : List.lookup mid pricing with
  | none =>
    dsimp only
    cases h9 : formatTokenStats v costs usage_data mid status (reasonJOf reasonOpt)
        cid 0 with
    | error e => exact ⟨incFragsOf v reasonOpt ++ toolFragsOf items, rfl⟩
    | ok stats =>
      exact ⟨incFragsOf v reasonOpt ++ toolFragsOf items ++
        (if stats ≠ "" then [stats] else []), by simp⟩
  | some pp =>
  dsimp only
  cases h8 : tokensCalc usage_data with
  | error e => exact ⟨incFragsOf v reasonOpt ++ toolFragsOf items, rfl⟩
  | ok t =>
  obtain ⟨qin, qout, qr⟩ := t
  dsimp only
  cases h9 : formatTokenStats v
      (updateConversationCost costs cid (computeCost mid qin qout qr) qin qout qr)
      usage_data mid status (reasonJOf reasonOpt) cid (computeCost mid qin qout qr) with
  | error e => exact ⟨incFragsOf v reasonOpt ++ toolFragsOf items, rfl⟩
  | ok stats =>
    exact ⟨incFragsOf v reasonOpt ++ toolFragsOf items ++
      (if stats ≠ "" then [stats] else []), by simp⟩

/-- Claim C1 counterexample: a 200 response whose `usage.total_tokens`
is not a number makes `_format_token_stats` raise AFTER
`_update_conversation_cost` has run: the turn fails (an exception
escapes the `try`, and the last fragment is an `"Error:"` message), yet
the conversation-accounting map has changed. -/
theorem C1_counterexample :
    ((pipeTry c1v c1st c1Body c1User
        (NetOutcome.resp 200 "" (some c1BadResp))).2.2).isSome = true ∧
    ((pipe c1v c1st c1Body c1User
        (NetOutcome.resp 200 "" (some c1BadResp))).1.getLast?.map startsWithError) =
      some true ∧
    (pipe c1v c1st c1Body c1User
        (NetOutcome.resp 200 "" (some c1BadResp))).2.conversation_costs ≠
      c1st.conversation_costs :=
  ⟨by decide, by decide, by decide⟩

/-- Claim C1 (amended): the conversation-cost map changes only by a
single additive update with the computed cost; a timeout, a non-200
response, or a message-format error never updates it; and on a
successful 200 turn with usage data the update happens and any
statistics fragment is computed from the already-updated account
("before the statistics fragment is produced") — with the one
exception the counterexample forces: an unexpected exception raised
while formatting the statistics (non-numeric `total_tokens`) occurs
after the update, which then persists while the turn ends in an
`"Error:"` fragment. -/
theorem C1_accounting (v : Valves) (st : PipeState) (body user : J) :
    (∀ net, (pipe v st body user net).2.conversation_costs = st.conversation_costs ∨
      ∃ cid mid qin qout qr,
        (pipe v st body user net).2.conversation_costs =
          updateConversationCost st.conversation_costs cid
            (computeCost mid qin qout qr) qin qout qr) ∧
    ((pipe v st body user NetOutcome.timeout).2.conversation_costs =
      st.conversation_costs) ∧
    (∀ code text jsonOpt, code ≠ 200 →
      (pipe v st body user (NetOutcome.resp code text jsonOpt)).2.conversation_costs =
        st.conversation_costs) ∧
    (∀ net msJ msgs e, pyIndex body "messages" = .ok msJ → pyIter msJ = .ok msgs →
      transformMessages msgs = .error e →
      (pipe v st body user net).2.conversation_costs = st.conversation_costs) ∧
    (∀ text rd cid ms msJ msgs input ot status usage_data reasonOpt items qin qout qr pp,
      getConversationId v body user = .ok cid →
      splitKeys v.API_KEYS ≠ [] →
      pyIndex body "model" = .ok (J.str ms) →
      modelSuffix ms ∈ openai_response_models →
      pyIndex body "messages" = .ok msJ →
      pyIter msJ = .ok msgs →
      transformMessages msgs = .ok input →
      debugKeysCheck v rd = .ok () →
      extractOutputText rd = .ok ot →
      pyGetD rd "status" (J.str "completed") = .ok status →
      incompleteReason rd status = .ok reasonOpt →
      pyGetD rd "output" (J.arr []) >>= pyIter = .ok items →
      pyGetD rd "usage" (J.obj []) = .ok usage_data →
      usage_data.truthy = true →
      List.lookup (modelSuffix ms) pricing = some pp →
      tokensCalc usage_data = .ok (qin, qout, qr) →
      ((pipe v st body user (NetOutcome.resp 200 text (some rd))).2.conversation_costs =
        updateConversationCost st.conversation_costs cid
          (computeCost (modelSuffix ms) qin qout qr) qin qout qr) ∧
      (okNonempty (formatTokenStats v
          (updateConversationCost st.conversation_costs cid
            (computeCost (modelSuffix ms) qin qout qr) qin qout qr)
          usage_data (modelSuffix ms) status (reasonJOf reasonOpt) cid
          (computeCost (modelSuffix ms) qin qout qr)) = true →
        (pipe v st body user (NetOutcome.resp 200 text (some rd))).1.getLast? =
          (formatTokenStats v
            (updateConversationCost st.conversation_costs cid
              (computeCost (modelSuffix ms) qin qout qr) qin qout qr)
            usage_data (modelSuffix ms) status (reasonJOf reasonOpt) cid
            (computeCost (modelSuffix ms) qin qout qr)).toOption) ∧
      (isOkb (formatTokenStats v
          (updateConversationCost st.conversation_costs cid
            (computeCost (modelSuffix ms) qin qout qr) qin qout qr)
          usage_data (modelSuffix ms) status (reasonJOf reasonOpt) cid
          (computeCost (modelSuffix ms) qin qout qr)) = false →
        ((pipe v st body user
            (NetOutcome.resp 200 text (some rd))).1.getLast?.map startsWithError) =
          some true)) := by
  refine ⟨?_, ?_, ?_, ?_, ?_⟩
  · intro net
    rcases pipe_costs_master v st body user net with h | ⟨text, rd, cid, ms, msJ, msgs,
      input, hnet, hc, hk, hmod, hsup, hmsgs, hit, ht, hfin⟩
    · left; exact h
    · rcases respond_costs_cases v st.conversation_costs cid (modelSuffix ms) rd
        with hr | ⟨qin, qout, qr, hr⟩
      · left; rw [hfin, hr]
      · right; exact ⟨cid, modelSuffix ms, qin, qout, qr, by rw [hfin, hr]⟩
  · rcases pipe_costs_master v st body user NetOutcome.timeout with h | ⟨text, rd, cid,
      ms, msJ, msgs, input, hnet, _⟩
    · exact h
    · exact NetOutcome.noConfusion hnet
  · intro code text jsonOpt hcode
    rcases pipe_costs_master v st body user (NetOutcome.resp code text jsonOpt)
      with h | ⟨text', rd, cid, ms, msJ, msgs, input, hnet, _⟩
    · exact h
    · injection hnet with h1 h2 h3
      exact absurd h1 hcode
  · intro net msJ msgs e hmsgs hit ht
    rcases pipe_costs_master v st body user net with h | ⟨text, rd, cid, ms, msJ', msgs',
      input, hnet, hc, hk, hmod, hsup, hmsgs', hit', ht', hfin⟩
    · exact h
    · rw [hmsgs'] at hmsgs
      have hJ : msJ' = msJ := Except.ok.inj hmsgs
      subst hJ
      rw [hit'] at hit
      have hM : msgs' = msgs := Except.ok.inj hit
      subst hM
      rw [ht'] at ht
      exact Except.noConfusion ht
  · intro text rd cid ms msJ msgs input ot status usage_data reasonOpt items qin qout qr
      pp hc hk hmod hsup hmsgs hit ht h0 h1 h2 h3 h4 h5 h6 h7 h8
    have hreach := pipeTry_reach v st body user cid ms msJ msgs input hc hk hmod hsup
      hmsgs hit ht (NetOutcome.resp 200 text (some rd))
    have hresp := respond_eq_usage v st.conversation_costs cid (modelSuffix ms) rd ot
      status usage_data reasonOpt items qin qout qr pp h0 h1 h2 h3 h4 h5 h6 h7 h8
    simp only at hreach
    rw [if_neg (by simp)] at hreach
    have hpipe : pipe v st body user (NetOutcome.resp 200 text (some rd)) =
        (let r := respond v st.conversation_costs cid (modelSuffix ms) rd
         let processing := processingFrag st.conversation_costs cid (modelSuffix ms)
         match r.2.2 with
         | none => (processing :: r.1, PipeState.mk (st.api_key_index + 1) r.2.1)
         | some PyExc.timeout =>
           ((processing :: r.1) ++ ["Error: Request timed out after " ++
             toString v.TIMEOUT_SECONDS ++ " seconds."],
            PipeState.mk (st.api_key_index + 1) r.2.1)
         | some (PyExc.exc msg) =>
           ((processing :: r.1) ++ ["Error: " ++ msg],
            PipeState.mk (st.api_key_index + 1) r.2.1)) := by
      unfold pipe
      rw [hreach]
      cases hx : (respond v st.conversation_costs cid (modelSuffix ms) rd).2.2 with
      | none => simp [hx]
      | some e => cases e <;> simp [hx]
    refine ⟨?_, ?_, ?_⟩
    · rw [hpipe]
      simp only
      cases h9 : formatTokenStats v
          (updateConversationCost st.conversation_costs cid
            (computeCost (modelSuffix ms) qin qout qr) qin qout qr)
          usage_data (modelSuffix ms) status (reasonJOf reasonOpt) cid
          (computeCost (modelSuffix ms) qin qout qr) with
      | error e =>
        rw [hresp]
        simp only [h9]
        cases e <;> rfl
      | ok stats =>
        rw [hresp]
        simp only [h9]
    · intro hOK
      cases h9 : formatTokenStats v
          (updateConversationCost st.conversation_costs cid
            (computeCost (modelSuffix ms) qin qout qr) qin qout qr)
          usage_data (modelSuffix ms) status (reasonJOf reasonOpt) cid
          (computeCost (modelSuffix ms) qin qout qr) with
      | error e => rw [h9] at hOK; simp [okNonempty] at hOK
      | ok stats =>
        rw [h9] at hOK
        have hne : stats ≠ "" := by simpa [okNonempty] using hOK
        rw [hpipe]
        simp only
        rw [hresp]
        simp only [h9, if_pos hne]
        rw [getLast?_cons_concat]
        rfl
    · intro hERR
      cases h9 : formatTokenStats v
          (updateConversationCost st.conversation_costs cid
            (computeCost (modelSuffix ms) qin qout qr) qin qout qr)
          usage_data (modelSuffix ms) status (reasonJOf reasonOpt) cid
          (computeCost (modelSuffix ms) qin qout qr) with
      | ok stats => rw [h9] at hERR; simp [isOkb] at hERR
      | error e =>
        rw [hpipe]
        simp only
        rw [hresp]
        simp only [h9]
        cases e with
        | timeout =>
          rw [List.getLast?_concat]
          have h10 : startsWithError ("Error: Request timed out after " ++
              toString v.TIMEOUT_SECONDS ++ " seconds.") = true :=
            startsWithError_append _ _
              (startsWithError_append "Error: Request timed out after " _ (by decide))
          simp [h10]
        | exc msg =>
          rw [List.getLast?_concat]
          have h10 : startsWithError ("Error: " ++ msg) = true :=
            startsWithError_append "Error: " _ (by decide)
          simp [h10]

theorem C1_witness :
    ((pipe c1v c1st c1Body c1User
        (NetOutcome.resp 200 "" (some c1GoodResp))).2.conversation_costs =
      updateConversationCost c1st.conversation_costs "conv_u_449b2eb27ff56438"
        (computeCost (modelSuffix "m.o3-pro") 1000000 1000000 0) 1000000 1000000 0) ∧
    ((pipe c1v c1st c1Body c1User
        (NetOutcome.resp 200 "" (some c1GoodResp))).1.getLast? =
      (formatTokenStats c1v
        (updateConversationCost c1st.conversation_costs "conv_u_449b2eb27ff56438"
          (computeCost (modelSuffix "m.o3-pro") 1000000 1000000 0) 1000000 1000000 0)
        (J.obj [("input_tokens", J.num 1000000), ("output_tokens", J.num 1000000),
                ("total_tokens", J.num 2000000)])
        (modelSuffix "m.o3-pro") (J.str "completed") (reasonJOf none)
        "conv_u_449b2eb27ff56438"
        (computeCost (modelSuffix "m.o3-pro") 1000000 1000000 0)).toOption) := by
  have h := (C1_accounting c1v c1st c1Body c1User).2.2.2.2 "" c1GoodResp
    "conv_u_449b2eb27ff56438" "m.o3-pro"
    (J.arr [J.obj [("role", J.str "user"), ("content", J.str "hi")]])
    [J.obj [("role", J.str "user"), ("content", J.str "hi")]]
    [J.obj [("role", J.str "user"),
      ("content", J.arr [J.obj [("type", J.str "input_text"), ("text", J.str "hi")]])]]
    (J.str "hello!") (J.str "completed")
    (J.obj [("input_tokens", J.num 1000000), ("output_tokens", J.num 1000000),
            ("total_tokens", J.num 2000000)])
    none [] 1000000 1000000 0 (20, 80)
    (by decide) (by decide) rfl (by decide) rfl rfl rfl rfl rfl rfl rfl rfl rfl
    (by decide) rfl rfl
  exact ⟨h.1, h.2.1 (by decide)⟩

/-- Claim C9: every failure path yields human-readable text beginning
with `"Error:"` — every exception escaping the `try` is appended as a
fragment starting with `"Error:"`; the unsupported-model return uses its
own distinct wording, which also begins with `"Error:"`; the
configuration error and non-200 fragments begin with `"Error:"`; the
"no response text found" case instead yields a fixed warning that does
not begin with `"Error:"`. -/
theorem C9_failure_wording (v : Valves) (st : PipeState) (body user : J) :
    (∀ net frags st' e, pipeTry v st body user net = (frags, st', some e) →
      ∃ m, pipe v st body user net = (frags ++ [m], st') ∧ startsWithError m = true) ∧
    (∀ net ms, isOkb (getConversationId v body user) = true →
      splitKeys v.API_KEYS ≠ [] →
      pyIndex body "model" = .ok (J.str ms) →
      modelSuffix ms ∉ openai_response_models →
      pipe v st body user net =
        (["Error: Model " ++ modelSuffix ms ++
          " not supported. Only o1-pro and o3-pro are available."],
         { st with api_key_index := st.api_key_index + 1 }) ∧
      startsWithError ("Error: Model " ++ modelSuffix ms ++
        " not supported. Only o1-pro and o3-pro are available.") = true) ∧
    (∀ net, splitKeys v.API_KEYS = [] →
      isOkb (getConversationId v body user) = true →
      pipe v st body user net = (["Error: No API keys configured"], st) ∧
      startsWithError "Error: No API keys configured" = true) ∧
    (∀ code text jsonOpt cid ms msJ msgs input,
      getConversationId v body user = .ok cid →
      splitKeys v.API_KEYS ≠ [] →
      pyIndex body "model" = .ok (J.str ms) →
      modelSuffix ms ∈ openai_response_models →
      pyIndex body "messages" = .ok msJ →
      pyIter msJ = .ok msgs →
      transformMessages msgs = .ok input →
      code ≠ 200 →
      pipe v st body user (NetOutcome.resp code text jsonOpt) =
        ([processingFrag st.conversation_costs cid (modelSuffix ms),
          "Error: " ++ toString code ++ " " ++ text],
         { st with api_key_index := st.api_key_index + 1 }) ∧
      startsWithError ("Error: " ++ toString code ++ " " ++ text) = true) ∧
    (∀ text rd cid ms msJ msgs input ot,
      getConversationId v body user = .ok cid →
      splitKeys v.API_KEYS ≠ [] →
      pyIndex body "model" = .ok (J.str ms) →
      modelSuffix ms ∈ openai_response_models →
      pyIndex body "messages" = .ok msJ →
      pyIter msJ = .ok msgs →
      transformMessages msgs = .ok input →
      debugKeysCheck v rd = .ok () →
      extractOutputText rd = .ok ot →
      ot.truthy = false →
      ∃ rest, (pipe v st body user (NetOutcome.resp 200 text (some rd))).1 =
        processingFrag st.conversation_costs cid (modelSuffix ms) ::
          "No response text found in the API response." :: rest) ∧
    startsWithError "No response text found in the API response." = false := by
  refine ⟨?_, ?_, ?_, ?_, ?_, by decide⟩
  · intro net frags st' e hpt
    unfold pipe
    rw [hpt]
    cases e with
    | timeout =>
      refine ⟨_, rfl, ?_⟩
      exact startsWithError_append _ _
        (startsWithError_append "Error: Request timed out after " _ (by decide))
    | exc msg =>
      refine ⟨_, rfl, ?_⟩
      exact startsWithError_append "Error: " _ (by decide)
  · intro net ms hc hk hmod hns
    refine ⟨pipe_unsupported v st body user ms hc hk hmod hns net, ?_⟩
    exact startsWithError_append _ _
      (startsWithError_append "Error: Model " _ (by decide))
  · intro net hk hc
    exact ⟨pipe_no_keys v st body user net hk hc, by decide⟩
  · intro code text jsonOpt cid ms msJ msgs input hc hk hmod hsup hmsgs hit ht hcode
    constructor
    · have hreach := pipeTry_reach v st body user cid ms msJ msgs input hc hk hmod hsup
        hmsgs hit ht (NetOutcome.resp code text jsonOpt)
      simp only at hreach
      rw [if_pos hcode] at hreach
      unfold pipe
      rw [hreach]
    · exact startsWithError_append _ _
        (startsWithError_append "Error: " (toString code) (by decide))
  · intro text rd cid ms msJ msgs input ot hc hk hmod hsup hmsgs hit ht h0 h1 hfalse
    have hreach := pipeTry_reach v st body user cid ms msJ msgs input hc hk hmod hsup
      hmsgs hit ht (NetOutcome.resp 200 text (some rd))
    simp only at hreach
    rw [if_neg (by simp)] at hreach
    obtain ⟨rest0, hfr⟩ := respond_frags_cons v st.conversation_costs cid
      (modelSuffix ms) rd ot h0 h1
    have hwarn : frag1Of ot = "No response text found in the API response." := by
      unfold frag1Of
      rw [hfalse]
      rfl
    unfold pipe
    cases hx : (respond v st.conversation_costs cid (modelSuffix ms) rd).2.2 with
    | none =>
      rw [hreach]
      simp only [hx]
      refine ⟨rest0, ?_⟩
      rw [hfr, hwarn]
    | some e =>
      rw [hreach]
      simp only [hx]
      cases e with
      | timeout =>
        refine ⟨rest0 ++ ["Error: Request timed out after " ++
          toString v.TIMEOUT_SECONDS ++ " seconds."], ?_⟩
        rw [hfr, hwarn]
        simp
      | exc msg =>
        refine ⟨rest0 ++ ["Error: " ++ msg], ?_⟩
        rw [hfr, hwarn]
        simp

theorem C9_witness :
    pipe { API_KEYS := "k" } ⟨0, []⟩
      (J.obj [("model", J.str "x.gpt-4"), ("messages", J.arr [])]) (J.obj [])
      NetOutcome.timeout =
      (["Error: Model " ++ modelSuffix "x.gpt-4" ++
        " not supported. Only o1-pro and o3-pro are available."], ⟨1, []⟩) ∧
    startsWithError ("Error: Model " ++ modelSuffix "x.gpt-4" ++
      " not supported. Only o1-pro and o3-pro are available.") = true :=
  (C9_failure_wording { API_KEYS := "k" } ⟨0, []⟩
    (J.obj [("model", J.str "x.gpt-4"), ("messages", J.arr [])]) (J.obj [])).2.1
    NetOutcome.timeout "x.gpt-4" (by decide) (by decide) rfl (by decide)
